import Mathlib

/-!
# Verification of the minimalist-cv data/view pipeline

Shallow embedding of the core of the `ducban/minimalist-cv` repository:
the resume data model (`src/lib/types.ts`), the static resume record
(`src/data/resume-data.tsx`), the data-to-wire projection and resolver
(`src/apollo/resolvers.ts`), the GraphQL route handler
(`src/app/graphql/route.ts`), the page section renderers
(`src/app/page.tsx`) and the command palette
(`src/components/command-menu.tsx`), together with theorems settling the
spec's testable properties.
-/

namespace MinimalistCV

/-! ## React node model

`ReactNode` values appearing in the data layer are either plain strings or
element trees (JSX).  We model the element trees structurally: a node is a
text run or a tagged element with children.  `summary : string | ReactNode`
becomes the sum type `StrOrNode`.
-/

/-- A React element tree: a text run, or a tagged element with children. -/
inductive RNode where
  | text (s : String)
  | elem (tag : String) (children : List RNode)
deriving Repr

/-- A value typed `string | ReactNode` in `src/lib/types.ts`
(`typeof v === "string"` distinguishes the two branches at runtime). -/
inductive StrOrNode where
  | str (s : String)
  | node (n : RNode)
deriving Repr

/-- `typeof v === "string"` test on a `string | ReactNode` value. -/
def StrOrNode.isString : StrOrNode → Bool
  | .str _ => true
  | .node _ => false

/-! ## Resume data model — `src/lib/types.ts` -/

/-- `Social` from `src/lib/types.ts`: a social media link.
`icon` is a `ReactNode`; `navbar` is optional. -/
structure Social where
  name : String
  url : String
  icon : RNode
  navbar : Option Bool := none
deriving Repr

/-- `Contact` from `src/lib/types.ts`. -/
structure Contact where
  email : String
  tel : String
  social : List Social
deriving Repr

/-- `Work` from `src/lib/types.ts`.  `end` is a Lean keyword, embedded as
`end_`; it may hold the literal sentinel string `"Present"`. -/
structure Work where
  company : String
  title : String
  logo : Option RNode := none
  start : String
  end_ : String
  description : String
  link : Option String := none
  badges : Option (List String) := none
deriving Repr

/-- `Education` from `src/lib/types.ts`. -/
structure Education where
  school : String
  degree : String
  start : String
  end_ : String
  link : Option String := none
deriving Repr, DecidableEq

/-- A project link entry from `src/lib/types.ts` (`links` element type). -/
structure ProjLink where
  type : String
  href : String
  icon : RNode
deriving Repr

/-- `Project` from `src/lib/types.ts`. -/
structure Project where
  title : String
  href : Option String := none
  dates : String
  active : Bool
  description : String
  technologies : List String
  links : List ProjLink
  image : Option String := none
  video : Option String := none
deriving Repr

/-- `ResumeData` from `src/lib/types.ts`: the root record.
`summary` is `string | ReactNode`; every list field is a plain list. -/
structure ResumeData where
  name : String
  initials : String
  location : String
  locationLink : String
  about : String
  summary : StrOrNode
  avatarUrl : String
  personalWebsiteUrl : String
  contact : Contact
  education : List Education
  work : List Work
  skills : List String
  projects : List Project
deriving Repr

/-! ## Wire types — `src/apollo/type-defs.ts`

The GraphQL object types.  They mirror the data types except that every
field is a plain string/bool/array: `icon` fields are dropped and `summary`
is a plain `String`.  The classes are named `Social`, `Contact`, … in the
source; we embed them inside the namespace `TypeDefs`.
-/

namespace TypeDefs

/-- `Social` GraphQL type from `src/apollo/type-defs.ts` (no `icon`). -/
structure Social where
  name : String
  url : String
  navbar : Option Bool := none
deriving Repr, DecidableEq

/-- `Contact` GraphQL type from `src/apollo/type-defs.ts`. -/
structure Contact where
  email : String
  tel : String
  social : List Social
deriving Repr, DecidableEq

/-- `Work` GraphQL type from `src/apollo/type-defs.ts`. -/
structure Work where
  company : String
  title : String
  start : String
  end_ : String
  description : String
  link : Option String := none
  badges : Option (List String) := none
deriving Repr, DecidableEq

/-- `Education` GraphQL type from `src/apollo/type-defs.ts`. -/
structure Education where
  school : String
  degree : String
  start : String
  end_ : String
  link : Option String := none
deriving Repr, DecidableEq

/-- `Link` GraphQL type from `src/apollo/type-defs.ts` (project links). -/
structure Link where
  type : String
  href : String
deriving Repr, DecidableEq

/-- `Project` GraphQL type from `src/apollo/type-defs.ts` (no icons). -/
structure Project where
  title : String
  href : Option String := none
  dates : String
  active : Bool
  description : String
  technologies : List String
  links : List Link
  image : Option String := none
  video : Option String := none
deriving Repr, DecidableEq

/-- `Me` GraphQL root type from `src/apollo/type-defs.ts`:
the `WireResumeRecord` of the spec; `summary` is a plain `String`. -/
structure Me where
  name : String
  initials : String
  location : String
  locationLink : String
  about : String
  summary : String
  avatarUrl : String
  personalWebsiteUrl : String
  contact : Contact
  education : List Education
  work : List Work
  skills : List String
  projects : List Project
deriving Repr, DecidableEq

end TypeDefs

/-! ## Data-to-wire projection — `src/apollo/resolvers.ts` -/

/-- `reactNodeToString` from `src/apollo/resolvers.ts`: strings pass
through; any React element is replaced by the fixed placeholder
`"[React Component]"` (the source comments that a real renderer could be
used, but returns the placeholder). -/
def reactNodeToString : StrOrNode → String
  | .str s => s
  | .node _ => "[React Component]"

/-- `resumeDataToGraphQL` from `src/apollo/resolvers.ts`: transforms the
resume data to the GraphQL-compatible `Me` shape.  `summary` is kept when
it is a string and otherwise flattened by `reactNodeToString`; `icon`
fields are dropped; list fields are rebuilt (`.map`, `Array.from`). -/
def resumeDataToGraphQL (data : ResumeData) : TypeDefs.Me :=
  { name := data.name
    initials := data.initials
    location := data.location
    locationLink := data.locationLink
    about := data.about
    summary :=
      match data.summary with
      | .str s => s
      | .node n => reactNodeToString (.node n)
    avatarUrl := data.avatarUrl
    personalWebsiteUrl := data.personalWebsiteUrl
    contact :=
      { email := data.contact.email
        tel := data.contact.tel
        social := data.contact.social.map fun s =>
          { name := s.name, url := s.url, navbar := s.navbar } }
    education := data.education.map fun edu =>
      { school := edu.school
        degree := edu.degree
        start := edu.start
        end_ := edu.end_
        link := edu.link }
    work := data.work.map fun w =>
      { company := w.company
        title := w.title
        start := w.start
        end_ := w.end_
        description := w.description
        link := w.link
        badges := match w.badges with
          | some b => some (List.ofFn fun i : Fin b.length => b.get i)
          | none => none }
    skills := List.ofFn fun i : Fin data.skills.length => data.skills.get i
    projects := data.projects.map fun p =>
      { title := p.title
        href := p.href
        dates := p.dates
        active := p.active
        description := p.description
        technologies :=
          List.ofFn fun i : Fin p.technologies.length => p.technologies.get i
        links := p.links.map fun link =>
          { type := link.type, href := link.href }
        image := p.image
        video := p.video } }

/-! ## The process-wide resume record — `src/data/resume-data.tsx`

The single hand-authored `RESUME_DATA` constant.  Its `summary` and every
`work` description are plain strings; `social` icons are icon-name strings.
The project entries in the source use the shape described by the spec
(title, `techStack`, description, one labelled `link`); the repository
ships no `lib/types.ts` next to this data file, so they are embedded into
the `Project` shape above with `techStack` as `technologies` and the
labelled link as the single `links` entry; `dates`, `active` and link
icons do not occur in the source file and are embedded as defaults. -/
def RESUME_DATA : ResumeData :=
  { name := "Ban Nguyen"
    initials := "BN"
    location := "Ho Chi Minh City, Viet Nam"
    locationLink := "https://www.google.com/maps/place/Ho+Chi+Minh+City"
    about := "Product Manager"
    summary := .str "Product Manager with a strategic marketing foundation and hands-on AI development expertise. Proven track record of delivering a 100% revenue increase at TIX.VN and achieving a CSAT of over 90% through AI-powered automation systems. Skilled in building comprehensive AI applications from the ground up using a modern stack (Python, TypeScript, Swift, Bash) and multi-agent architectures. My marketing background provides a unique advantage in driving product-led growth by combining customer psychology, market positioning, and strategic communication with technical AI implementation. My diverse educational background in Agriculture and Marketing fosters a systems-thinking approach to create customer-centric, innovative solutions that deliver measurable business impact."
    avatarUrl := "https://angi.truanay.com/images/photo-2-square.jpg"
    personalWebsiteUrl := "https://ducban.com"
    contact :=
      { email := "nguyenducban@me.com"
        tel := "+84983472120"
        social :=
          [{ name := "GitHub", url := "https://github.com/ban-nguyen", icon := .text "github" },
           { name := "LinkedIn", url := "https://www.linkedin.com/in/ban-nguyen/", icon := .text "linkedin" }] }
    education :=
      [{ school := "Swiss International University",
         degree := "Bachelor\u0027s Degree, Marketing",
         start := "2016", end_ := "2018" },
       { school := "Tay Nguyen University",
         degree := "Bachelor\u0027s Degree, Faculty of Agriculture and Forestry",
         start := "1997", end_ := "2001" }]
    work :=
      [{ company := "MoMo (M_Service)", link := some "https://momo.vn/",
         badges := some ["AI", "Fintech", "Travel"],
         title := "Product Management - Team Leader",
         start := "2024", end_ := "Present",
         description :=
           "Led product strategy for MoMo Travel, leveraging a marketing foundation to drive AI innovation. Developed custom AI applications and multi-agent systems, achieving a CSAT of over 90%. Implemented AI-powered competitive analysis, RAG-based knowledge systems, and robust data pipelines, significantly improving team efficiency and strategic decision-making." },
       { company := "YODY Fashion JSC.", link := some "https://yody.vn/",
         badges := some ["E-commerce", "Fashion"],
         title := "Head of Product Development",
         start := "2022", end_ := "2023",
         description :=
           "Led the strategic transformation from a Sapo-based platform to a full omni-channel e-commerce solution. Utilized a BigQuery-based Customer Data Platform (CDP) to unify data and optimize the customer journey. Recruited and managed a cross-functional product team." },
       { company := "TIKI", link := some "https://tiki.vn/",
         badges := some ["E-commerce", "Marketplace"],
         title := "Senior Product Manager",
         start := "2020", end_ := "2022",
         description :=
           "Launched and scaled DoriDori, Vietnam\u0027s first integrated C2C marketplace, achieving 20% daily active user retention. Led the development of the underlying OMS and CRM systems and expanded the digital service business, doubling its GMV." },
       { company := "VNG Corporation", link := some "https://www.vng.com.vn/",
         badges := some ["Entertainment", "Fintech"],
         title := "Senior Product Manager",
         start := "2019", end_ := "2020",
         description :=
           "Managed TIX.VN, Vietnam\u0027s largest movie aggregator, and delivered a 100% revenue increase. Led the strategic integration with major cinema partners like CGV and established ZaloPay as a default payment option within the Zalo super-app." },
       { company := "Leo Burnett Vietnam", link := some "https://leoburnett.com.vn/",
         badges := some ["Digital Marketing"],
         title := "Digital Producer",
         start := "2016", end_ := "2019",
         description :=
           "Managed award-winning digital campaigns for major clients, winning MMAVN 2017\u0027s \u0027Best in Show\u0027. Pioneered the first Spark AR implementation for a campaign in Vietnam, featured in a Facebook Spotlight." },
       { company := "Y&R", link := some "https://www.yr.com/",
         badges := some ["Digital Marketing"],
         title := "Digital Producer",
         start := "2015", end_ := "2016",
         description :=
           "Managed digital portfolios for global brands like Microsoft, Emirates, and Red Bull. Coordinated the idea development process between creative, accounts, and technical teams using agile methodologies." },
       { company := "VNG Corporation", link := some "https://www.vng.com.vn/",
         badges := some ["Gaming"],
         title := "Product Manager",
         start := "2014", end_ := "2015",
         description :=
           "Led product management for Vuigame.vn, achieving a 150% DAU increase and tripling time-on-site after a major relaunch. Acted as both Product Manager and Product Designer." },
       { company := "Freelance", link := some "",
         badges := some ["Web Development"],
         title := "Web Developer",
         start := "2012", end_ := "2014",
         description :=
           "Delivered full-stack web development projects, specializing in e-commerce. Worked on the front-end for TheGioiDiDong v3.0 and gained experience with international development standards and agile practices." },
       { company := "TX INC.", link := some "",
         badges := some ["Social Network"],
         title := "Product Manager",
         start := "2011", end_ := "2012",
         description :=
           "Led product management for Truongxua.com, one of Vietnam\u0027s first school-focused social networks. Managed a cross-functional team of over 15 members and achieved a 200% increase in new user acquisition." }]
    skills :=
      ["Marketing-Driven Product Strategy",
       "Applied AI & Automation",
       "Custom AI Application Development",
       "Multi-Agent Systems Architecture",
       "Data Analysis & Analytics",
       "Cross-functional Team Leadership",
       "Vibe-Coding (Python, TypeScript, Swift)",
       "RAG & Knowledge Base Systems",
       "Data Pipeline Architecture (Supabase, BigQuery)",
       "Agile & Scrum Methodologies",
       "Prompt & Context Engineering",
       "Full-stack Development Understanding"]
    projects :=
      [{ title := "Human Act Prize 2024",
         dates := "", active := false,
         description :=
           "Won the Human Act Prize for Sustainable Development Ideas for the \u0027Góp Lá Vá Rừng\u0027 initiative, aligning product innovation with social impact.",
         technologies := ["Social Impact", "Strategic Value Alignment"],
         links := [{ type := "Human Act Prize", href := "https://www.humanactprize.org/", icon := .text "" }] },
       { title := "MMVN 2017 Awards",
         dates := "", active := false,
         description :=
           "Won \u0027Best in Show\u0027, \u0027Most Engaging Mobile Creative\u0027, and \u0027Mobile Website\u0027 awards for creating market-leading digital experiences.",
         technologies := ["Marketing Innovation", "Mobile Creative"],
         links := [{ type := "MMA Smarties", href := "https://www.mmasmarties.com/about", icon := .text "" }] },
       { title := "Facebook Spotlight 2019",
         dates := "", active := false,
         description :=
           "Featured for a pioneering Spark AR implementation, showcasing the intersection of technical innovation and marketing creativity.",
         technologies := ["AR", "Technical Innovation"],
         links := [{ type := "Spark AR", href := "https://sparkar.facebook.com/ar-studio/", icon := .text "" }] },
       { title := "First CGV Cinema Integration",
         dates := "", active := false,
         description :=
           "Led TIX.VN to become the first movie aggregator in Vietnam to successfully integrate with the CGV cinema chain.",
         technologies := ["Market Leadership", "Strategic Partnership"],
         links := [{ type := "TIX.VN", href := "https://tix.vn/", icon := .text "" }] },
       { title := "Vietnam\u0027s First C2C Marketplace",
         dates := "", active := false,
         description :=
           "Launched the first integrated C2C marketplace in Vietnam, identifying and capitalizing on a new market opportunity.",
         technologies := ["Innovation Leadership", "Marketplace"],
         links := [{ type := "TIKI", href := "https://tiki.vn/", icon := .text "" }] }] }
/-! ## Read API — `src/apollo/resolvers.ts` and `src/app/graphql/route.ts` -/

/-- `MeResolver.me` from `src/apollo/resolvers.ts`: the single no-argument
root query; it returns the wire projection of the process-wide record. -/
def MeResolver.me : TypeDefs.Me := resumeDataToGraphQL RESUME_DATA

/-- A JSON value, for the serialized GraphQL responses. -/
inductive J where
  | str (s : String)
  | bool (b : Bool)
  | null
  | arr (xs : List J)
  | obj (fields : List (String × J))

/-- Serialize an optional string (`nullable` GraphQL fields). -/
def jOptStr : Option String → J
  | some s => .str s
  | none => .null

/-- Serialize a `TypeDefs.Social` value. -/
def encSocial (s : TypeDefs.Social) : J :=
  .obj [("name", .str s.name), ("url", .str s.url),
        ("navbar", match s.navbar with | some b => .bool b | none => .null)]

/-- Serialize a `TypeDefs.Contact` value. -/
def encContact (c : TypeDefs.Contact) : J :=
  .obj [("email", .str c.email), ("tel", .str c.tel),
        ("social", .arr (c.social.map encSocial))]

/-- Serialize a `TypeDefs.Education` value. -/
def encEducation (e : TypeDefs.Education) : J :=
  .obj [("school", .str e.school), ("degree", .str e.degree),
        ("start", .str e.start), ("end", .str e.end_),
        ("link", jOptStr e.link)]

/-- Serialize a `TypeDefs.Work` value. -/
def encWork (w : TypeDefs.Work) : J :=
  .obj [("company", .str w.company), ("title", .str w.title),
        ("start", .str w.start), ("end", .str w.end_),
        ("description", .str w.description), ("link", jOptStr w.link),
        ("badges", match w.badges with
          | some bs => .arr (bs.map J.str)
          | none => .null)]

/-- Serialize a `TypeDefs.Project` value. -/
def encProject (p : TypeDefs.Project) : J :=
  .obj [("title", .str p.title), ("href", jOptStr p.href),
        ("dates", .str p.dates), ("active", .bool p.active),
        ("description", .str p.description),
        ("technologies", .arr (p.technologies.map J.str)),
        ("links", .arr (p.links.map fun l =>
          .obj [("type", .str l.type), ("href", .str l.href)])),
        ("image", jOptStr p.image), ("video", jOptStr p.video)]

/-- The field names of the `Me` object type, as declared by the `@Field`
decorators in `src/apollo/type-defs.ts`. -/
def meFieldNames : List String :=
  ["name", "initials", "location", "locationLink", "about", "summary",
   "avatarUrl", "personalWebsiteUrl", "contact", "education", "work",
   "skills", "projects"]

/-- Modelled from the spec: the Apollo default field serialization (the
GraphQL library is an external dependency, not repository code) — each
selected field of `Me` is read off the resolver result.  Total; fields not
in `meFieldNames` are rejected by validation before this is reached. -/
def encMeField (m : TypeDefs.Me) : String → J
  | "name" => .str m.name
  | "initials" => .str m.initials
  | "location" => .str m.location
  | "locationLink" => .str m.locationLink
  | "about" => .str m.about
  | "summary" => .str m.summary
  | "avatarUrl" => .str m.avatarUrl
  | "personalWebsiteUrl" => .str m.personalWebsiteUrl
  | "contact" => encContact m.contact
  | "education" => .arr (m.education.map encEducation)
  | "work" => .arr (m.work.map encWork)
  | "skills" => .arr (m.skills.map J.str)
  | "projects" => .arr (m.projects.map encProject)
  | _ => .null

/-- Modelled from the spec: the built GraphQL schema, reduced to what
request handling observes — the list of root query field names.  The schema
built from `[MeResolver]` has the single root field `me`; the fallback
schema built from `[]` (the `catch` branch of `route.ts`) has none. -/
structure Schema where
  queryFields : List String
deriving Repr, DecidableEq

/-- The schema `buildSchema({ resolvers: [MeResolver] })` produces:
one root query field `me`. -/
def builtSchema : Schema := { queryFields := ["me"] }

/-- The fallback schema `buildSchema({ resolvers: [] })` of the `catch`
branch in `route.ts`: no root query fields. -/
def fallbackSchema : Schema := { queryFields := [] }

/-- The schema initialisation of `src/app/graphql/route.ts`: the `try`
block uses the schema built from `[MeResolver]` when construction
succeeds; the `catch` block substitutes the minimal fallback schema, so a
startup failure never escapes (the function is total — the host process
does not crash). -/
def routeSchema : Except String Schema → Schema
  | .ok s => s
  | .error _ => fallbackSchema

/-- A GraphQL request: one root query field together with the selected
subfields of its result type (the selection sets the claims exercise are
one level deep). -/
structure GqlRequest where
  rootField : String
  subfields : List String
deriving Repr, DecidableEq

/-- A GraphQL error: `message` plus the `extensions.code` value. -/
structure GqlError where
  message : String
  code : String
deriving Repr, DecidableEq

/-- A GraphQL response: either a success shape carrying the `data` member,
or a failure shape carrying the top-level `errors` array (the failure
shape has no `data` member at all). -/
inductive GqlResponse where
  | data (d : J)
  | errors (es : List GqlError)

/-- The `data` member of a response, when present. -/
def GqlResponse.dataJ : GqlResponse → Option J
  | .data d => some d
  | .errors _ => none

/-- The fixed response every request receives in the degraded
(schema-build-failed) state: the API surface is unavailable. -/
def unavailableResponse : GqlResponse :=
  .errors [{ message := "Service unavailable",
             code := "INTERNAL_SERVER_ERROR" }]

/-- Modelled from the spec: the Apollo request handler of `route.ts`
(the server library is an external dependency).  A schema with no root
query fields — the fallback of the `catch` branch — answers every request
with the fixed unavailable response.  Otherwise the selection is
validated: an unknown root field or an unknown subfield of `Me` yields the
failure shape with code `GRAPHQL_VALIDATION_FAILED` and no data; a valid
selection resolves `me` and serializes exactly the selected subfields. -/
def handleRequest (sch : Schema) (req : GqlRequest) : GqlResponse :=
  if sch.queryFields.isEmpty then
    unavailableResponse
  else if !(sch.queryFields.contains req.rootField) then
    .errors [{ message := "Cannot query field " ++ req.rootField
                 ++ " on type Query.",
               code := "GRAPHQL_VALIDATION_FAILED" }]
  else
    match req.subfields.find? (fun f => !(meFieldNames.contains f)) with
    | some bad =>
        .errors [{ message := "Cannot query field " ++ bad ++ " on type Me.",
                   code := "GRAPHQL_VALIDATION_FAILED" }]
    | none =>
        .data (.obj [("me", .obj (req.subfields.map fun f =>
          (f, encMeField MeResolver.me f)))])

/-! ## Command palette — `src/components/command-menu.tsx` -/

/-- A keyboard event, restricted to what the `down` handler reads. -/
structure KeyEvent where
  key : String
  metaKey : Bool
  ctrlKey : Bool
deriving Repr, DecidableEq

/-- The `down` keydown handler of `CommandMenu`: on `k` with the platform
modifier (`metaKey` or `ctrlKey`) it runs `setOpen((open) => !open)` —
a toggle of the single `open` boolean; any other key leaves the state
unchanged. -/
def commandMenuKeydown (e : KeyEvent) (openState : Bool) : Bool :=
  if e.key == "k" && (e.metaKey || e.ctrlKey) then !openState else openState

/-- The observable actions a palette command performs. -/
inductive Effect where
  | print
  | scrollToTop
  | openUrl (url : String)
deriving Repr, DecidableEq

/-- `runCommand` from `CommandMenu`: `setOpen(false); command();` — the
palette closes (whatever the current state) and the command runs once.
The result is the new `open` state and the list of performed effects. -/
def runCommand (command : Effect) (_openState : Bool) : Bool × List Effect :=
  (false, [command])

/-- The `onSelect` of the Print Resume item:
`runCommand(() => window.print())`. -/
def selectPrintItem (openState : Bool) : Bool × List Effect :=
  runCommand .print openState

/-! ## Section renderers — `src/app/page.tsx` -/

/-- Markup: a text run or an element with attributes and children
(cosmetic `className` attributes are not modelled). -/
inductive Html where
  | txt (s : String)
  | el (tag : String) (attrs : List (String × String)) (children : List Html)

/-- The card one `work` entry renders to in the Work Experience section
of `page.tsx`: company (linked when `link` is set), date range, title,
description and the badge row (absent when `badges` is undefined). -/
def workCard (w : Work) : Html :=
  .el "Card" []
    [.el "CardHeader" []
      [.el "h3" []
        [match w.link with
         | some l => .el "a" [("href", l)] [.txt w.company]
         | none => .txt w.company],
       .el "div" [] [.txt (w.start ++ " - " ++ w.end_)],
       .el "h4" [] [.txt w.title]],
     .el "CardContent" []
       ([.txt w.description] ++
        match w.badges with
        | some bs => [.el "div" [] (bs.map fun b => .el "Badge" [] [.txt b])]
        | none => [])]

/-- The card one `education` entry renders to in `page.tsx`. -/
def educationCard (e : Education) : Html :=
  .el "Card" []
    [.el "CardHeader" []
      [.el "h3" []
        [match e.link with
         | some l => .el "a" [("href", l)] [.txt e.school]
         | none => .txt e.school],
       .el "div" [] [.txt (e.start ++ " - " ++ e.end_)]],
     .el "CardContent" [] [.txt e.degree]]

/-- The badge one `skills` entry renders to in `page.tsx`. -/
def skillBadge (s : String) : Html :=
  .el "Badge" [] [.txt s]

/-- The card one `projects` entry renders to in `page.tsx`. -/
def projectCard (p : Project) : Html :=
  .el "Card" []
    [.el "CardHeader" []
      [.el "h3" []
        ([match p.href with
          | some h => .el "a" [("href", h)] [.txt p.title]
          | none => .txt p.title] ++
         (if p.active then [.el "span" [] []] else [])),
       .el "div" [] [.txt p.dates],
       .el "p" [] [.txt p.description]],
     .el "CardContent" []
       [.el "div" [] (p.technologies.map fun t => .el "Badge" [] [.txt t])]]

/-- The Work Experience section body: `RESUME_DATA.work.map(...)`. -/
def renderWorkSection (work : List Work) : List Html := work.map workCard

/-- The Education section body: `RESUME_DATA.education.map(...)`. -/
def renderEducationSection (education : List Education) : List Html :=
  education.map educationCard

/-- The Skills section body: `RESUME_DATA.skills.map(...)`. -/
def renderSkillsSection (skills : List String) : List Html :=
  skills.map skillBadge

/-- The Projects section body: `RESUME_DATA.projects.map(...)`. -/
def renderProjectsSection (projects : List Project) : List Html :=
  projects.map projectCard

/-! ## Theorems -/

/-- C1: the single no-argument root query of the Read API (named `me` in
`src/apollo/resolvers.ts`; the spec section 4.2 introduces it as
`fetchProfile`), executed with the selection `{ name }` against the
process-wide record — whose `name` is `"Ban Nguyen"` — returns the success
shape `{"data":{"me":{"name":"Ban Nguyen"}}}`. -/
theorem me_query_name_returns_ban_nguyen :
    RESUME_DATA.name = "Ban Nguyen" ∧
    handleRequest builtSchema { rootField := "me", subfields := ["name"] } =
      .data (.obj [("me", .obj [("name", .str "Ban Nguyen")])]) :=
  ⟨rfl, rfl⟩

/-- C2: for every `ResumeData` record in which every rich-text-capable
field is a plain string — `summary` is the only field typed
`string | ReactNode`; `work` descriptions are typed `string` already —
the wire projection is the identity on those fields. -/
theorem wire_projection_identity_on_plain_strings
    (d : ResumeData) (s : String) (h : d.summary = .str s) :
    (resumeDataToGraphQL d).summary = s ∧
    (resumeDataToGraphQL d).work.map (fun w => w.description) =
      d.work.map (fun w => w.description) := by
  refine ⟨?_, ?_⟩
  · simp [resumeDataToGraphQL, h]
  · simp only [resumeDataToGraphQL, List.map_map]
    rfl

/-- C2 witness: the process-wide record has a plain-string summary, and
the projection is the identity on it and on every work description. -/
theorem wire_projection_identity_on_plain_strings_witness :
    (resumeDataToGraphQL RESUME_DATA).summary
        = reactNodeToString RESUME_DATA.summary ∧
    (resumeDataToGraphQL RESUME_DATA).work.map (fun w => w.description) =
      RESUME_DATA.work.map (fun w => w.description) :=
  wire_projection_identity_on_plain_strings RESUME_DATA
    (reactNodeToString RESUME_DATA.summary) rfl

/-- C3 counterexample: pressing modifier+K (here Cmd+K) while the palette
is Open is not a no-op — the `down` handler runs
`setOpen((open) => !open)`, so the state does not remain Open. -/
theorem kbd_while_open_not_noop :
    ¬ (commandMenuKeydown { key := "k", metaKey := true, ctrlKey := false }
        true = true) := by
  decide

/-- C3 (amended): pressing modifier+K toggles the palette: while Open it
transitions to Closed (with either modifier), and while Closed to Open.
The palette state is the single `open` boolean, so no second overlay
instance can be created. -/
theorem kbd_toggles_open_state :
    commandMenuKeydown { key := "k", metaKey := true, ctrlKey := false }
        true = false ∧
    commandMenuKeydown { key := "k", metaKey := false, ctrlKey := true }
        true = false ∧
    commandMenuKeydown { key := "k", metaKey := true, ctrlKey := false }
        false = true := by
  decide

/-- C4: every section renderer (`work`, `education`, `skills`, `projects`)
emits exactly one child block per input entry, the i-th block rendered
from the i-th entry (no resorting or filtering), and emits zero blocks —
without error — on the empty list. -/
theorem section_renderers_preserve_length_and_order
    (work : List Work) (education : List Education)
    (skills : List String) (projects : List Project) (i : Nat) :
    ((renderWorkSection work).length = work.length ∧
      (renderWorkSection work)[i]? = work[i]?.map workCard ∧
      renderWorkSection [] = []) ∧
    ((renderEducationSection education).length = education.length ∧
      (renderEducationSection education)[i]? =
        education[i]?.map educationCard ∧
      renderEducationSection [] = []) ∧
    ((renderSkillsSection skills).length = skills.length ∧
      (renderSkillsSection skills)[i]? = skills[i]?.map skillBadge ∧
      renderSkillsSection [] = []) ∧
    ((renderProjectsSection projects).length = projects.length ∧
      (renderProjectsSection projects)[i]? = projects[i]?.map projectCard ∧
      renderProjectsSection [] = []) := by
  simp [renderWorkSection, renderEducationSection, renderSkillsSection,
        renderProjectsSection, List.getElem?_map]

/-- C5: the query selecting `unknownField` on the root query result type
returns the failure shape whose single error carries
`extensions.code = GRAPHQL_VALIDATION_FAILED`, and the response carries no
`data` member at all (hence no `data.me.unknownField` key). -/
theorem unknown_field_query_validation_failure :
    handleRequest builtSchema
        { rootField := "me", subfields := ["unknownField"] } =
      .errors [{ message := "Cannot query field unknownField on type Me.",
                 code := "GRAPHQL_VALIDATION_FAILED" }] ∧
    (handleRequest builtSchema
        { rootField := "me", subfields := ["unknownField"] }).dataJ = none :=
  ⟨rfl, rfl⟩

/-- C6: if schema construction fails at process startup, the `catch`
branch of `route.ts` substitutes the fallback schema instead of letting
the failure escape (`routeSchema` is total — the host process does not
crash, and the page renderers do not depend on it), and every subsequent
request receives the one fixed unavailable response. -/
theorem schema_build_failure_degrades_to_fixed_response
    (e : String) (req : GqlRequest) :
    handleRequest (routeSchema (.error e)) req = unavailableResponse :=
  rfl

/-- C7: the data-to-wire projection is deterministic — it is a pure
function of its input (the embedding takes no state besides the record),
so two invocations on the same record yield structurally equal output. -/
theorem wire_projection_deterministic
    (d₁ d₂ : ResumeData) (h : d₁ = d₂) :
    resumeDataToGraphQL d₁ = resumeDataToGraphQL d₂ :=
  congrArg resumeDataToGraphQL h

/-- C7 witness: two invocations on the process-wide record agree. -/
theorem wire_projection_deterministic_witness :
    resumeDataToGraphQL RESUME_DATA = resumeDataToGraphQL RESUME_DATA :=
  wire_projection_deterministic RESUME_DATA RESUME_DATA rfl

/-- C8: selecting the Print Resume item while the palette is Open runs
`runCommand(() => window.print())`: the palette state becomes Closed and
the performed effects are exactly one `print` — nothing else. -/
theorem select_print_closes_and_prints_once :
    selectPrintItem true = (false, [Effect.print]) := by
  decide

/-- C9: whenever the summary is not a plain string (a React element
tree), the projection maps it to the fixed placeholder
`"[React Component]"`, discarding the text content of the node — as does
`reactNodeToString` on every non-string argument. -/
theorem nonstring_summary_maps_to_placeholder
    (d : ResumeData) (n : RNode) (h : d.summary = .node n) :
    (resumeDataToGraphQL d).summary = "[React Component]" ∧
    reactNodeToString (.node n) = "[React Component]" := by
  refine ⟨?_, rfl⟩
  simp [resumeDataToGraphQL, h, reactNodeToString]

/-- C9 witness: the record with the JSX summary
`<>Senior Product Manager</>` (the shape `src/data/generic-resume-data.tsx`
uses) projects to the placeholder, its text discarded. -/
theorem nonstring_summary_maps_to_placeholder_witness :
    (resumeDataToGraphQL { RESUME_DATA with
        summary :=
          .node (.elem "Fragment" [.text "Senior Product Manager"]) }).summary
      = "[React Component]" ∧
    reactNodeToString
        (.node (.elem "Fragment" [.text "Senior Product Manager"]))
      = "[React Component]" :=
  nonstring_summary_maps_to_placeholder
    { RESUME_DATA with
      summary := .node (.elem "Fragment" [.text "Senior Product Manager"]) }
    (.elem "Fragment" [.text "Senior Product Manager"]) rfl

end MinimalistCV
